import Mathlib

/-!
Shallow embedding of the SASL authentication handshake of the StratoVirt VNC
server (`vnc/src/auth.rs`), together with theorems checking the natural
language specification's claims about it.

Modelling conventions:
* wire bytes are `Nat` values (each `< 256` on a real transport);
* the external cyrus-sasl library is an oracle (`Provider`) supplying the
  outcome of the one provider exchange call a handler round performs and of
  the two `sasl_getprop` queries used at finalization;
* the side effects of a handler (provider calls, `sasl_dispose`, writes to
  the client socket) are recorded as an explicit event trace, so temporal
  claims (dispose-once, use-after-dispose, start-exchange counts) become
  statements about traces;
* the foreign `*mut sasl_conn_t` handle is `Option Unit`: `some ()` is a
  live handle, `none` the null pointer (`sasl_dispose` nulls the pointer);
* `Result<()>` becomes `Except VncError Unit`; handlers that in Rust mutate
  `self` return the updated client state alongside the result.
-/

namespace StratoVncAuth

/-- Constant `MECHNAME_MAX_LEN` of auth.rs. -/
def MECHNAME_MAX_LEN : Nat := 100

/-- Constant `MECHNAME_MIN_LEN` of auth.rs. -/
def MECHNAME_MIN_LEN : Nat := 1

/-- Constant `SASL_DATA_MAX_LEN` of auth.rs (1 MiB). -/
def SASL_DATA_MAX_LEN : Nat := 1024 * 1024

/-- Constant `MIN_SSF_LENGTH` of auth.rs. -/
def MIN_SSF_LENGTH : Nat := 56

/-- cyrus-sasl result code `SASL_OK`. -/
def SASL_OK : Int := 0

/-- cyrus-sasl result code `SASL_CONTINUE`. -/
def SASL_CONTINUE : Int := 1

/-- Error text of the too-long branch of `get_mechname_length`. -/
def msgMechTooLong : String := "SASL mechname too long"

/-- Error text of the too-short branch of `get_mechname_length`. -/
def msgMechTooShort : String := "SASL mechname too short"

/-- Error text of `get_sasl_mechname` for a name outside the list. -/
def msgUnsupportedMech : String := "Unsupported mechanism"

/-- Error text of the oversized-length branch of `get_authmessage_length`. -/
def msgStartLenTooLarge : String := "SASL start len too large"

/-- Error text of the provider-failure branch of `client_sasl_auth`. -/
def msgAuthFailedText : String := "Auth failed!"

/-- Error text of the oversized-challenge branch of `client_sasl_auth`. -/
def msgDataTooLong : String := "SASL data too long"

/-- Error text of the `sasl_getprop` failure branch of `sasl_check_ssf`. -/
def msgGetpropInternal : String := "sasl_getprop: internal error"

/-- Error text of the weak-strength branch of `sasl_check_ssf`. -/
def msgSsfTooWeak : String := "SASL SSF too weak"

/-- Error text of the `sasl_getprop` failure branch of `sasl_check_authz`. -/
def msgCannotFetchUsername : String := "Cannot fetch SASL username"

/-- Error text used by `sasl_check_authz` both for a null property and for
an identity mismatch (the source reuses the same string). -/
def msgNoUsername : String := "No SASL username set"

/-- The fixed reason string of `auth_reject`. -/
def rejectReason : String := "Authentication failed"

/-- Enum `SaslStage` of auth.rs. -/
inductive SaslStage
  | SaslServerStart
  | SaslServerStep
deriving DecidableEq

/-- Struct `Sasl` of auth.rs.  The raw pointer `sasl_conn` is modelled as
`Option Unit` (`some ()` live, `none` null/disposed). -/
structure Sasl where
  sasl_conn : Option Unit
  identity : String
  mech_list : String
  mech_name : String
  sasl_stage : SaslStage
  want_ssf : Bool
  run_ssf : Nat
deriving DecidableEq

/-- Model of `Sasl::default()` of auth.rs. -/
def Sasl.default : Sasl :=
  { sasl_conn := none
    identity := ("")
    mech_list := ("")
    mech_name := ("")
    sasl_stage := SaslStage.SaslServerStart
    want_ssf := false
    run_ssf := 0 }

/-- The handler identifiers the handshake registers with
`update_event_handler` (function pointers in the source). -/
inductive Handler
  | GetMechnameLength
  | GetSaslMechname
  | GetAuthmessageLength
  | ClientSaslAuth
  | HandleClientInit
deriving DecidableEq

/-- The per-connection state the handshake touches: the intake buffer, the
registered `(expect, handler)` dispatch pair and the `Sasl` context. -/
structure VncClient where
  buffpool : List Nat
  expect : Nat
  sasl : Sasl
  handler : Handler
deriving DecidableEq

/-- Model of `VncError::AuthFailed` — the only error variant auth.rs constructs. -/
inductive VncError
  | AuthFailed (m : String)
deriving DecidableEq

instance : DecidableEq (Except VncError Unit) := fun a b =>
  match a, b with
  | Except.ok (), Except.ok () => isTrue rfl
  | Except.error x, Except.error y =>
    if h : x = y then isTrue (by rw [h]) else isFalse (fun hh => h (Except.error.inj hh))
  | Except.ok (), Except.error _ => isFalse (fun hh => Except.noConfusion hh)
  | Except.error _, Except.ok () => isFalse (fun hh => Except.noConfusion hh)

/-- Observable effects of a handler invocation: calls into the provider
session, disposal of the session handle, and writes to the client. -/
inductive Event
  | providerStart (mech : String) (data : List Nat) (len : Nat)
  | providerStep (data : List Nat) (len : Nat)
  | getpropSsf
  | getpropUsername
  | dispose
  | write (m : List Nat)
deriving DecidableEq

/-- Outcome of the provider exchange call (`sasl_server_start` /
`sasl_server_step`): the `c_int` result code and the challenge bytes placed
behind `serverout` (NUL-free; `serverout_len` is their count). -/
structure ExchangeOutcome where
  err : Int
  serverout : List Nat
deriving DecidableEq

/-- Outcome of `sasl_getprop(conn, SASL_SSF, ..)`. -/
inductive SsfProp
  | getpropErr
  | ok (ssf : Nat)
deriving DecidableEq

/-- Outcome of `sasl_getprop(conn, SASL_USERNAME, ..)`. -/
inductive UserProp
  | getpropErr
  | null
  | ok (name : String)
deriving DecidableEq

/-- Oracle for the foreign sasl library during one exchange round. -/
structure Provider where
  exchange : ExchangeOutcome
  ssf : SsfProp
  username : UserProp
deriving DecidableEq

/-- Result of one handler invocation: updated client state, emitted
events, and the Rust `Result<()>`. -/
structure Outcome where
  client : VncClient
  events : List Event
  result : Except VncError Unit
deriving DecidableEq

/-- Result of one of the two finalize checks. -/
structure CheckResult where
  sasl : Sasl
  events : List Event
  result : Except VncError Unit
deriving DecidableEq

/-- Model of `u32::to_be_bytes` on a value below `2 ^ 32`. -/
def be32 (n : Nat) : List Nat :=
  [n / 2 ^ 24 % 256, n / 2 ^ 16 % 256, n / 2 ^ 8 % 256, n % 256]

/-- Model of `u32::from_be_bytes([b0, b1, b2, b3])` on the first four buffered
bytes (the handlers index `buf[0] ..= buf[3]`). -/
def from_be_bytes (b : List Nat) : Nat :=
  ((b.getD 0 0 * 256 + b.getD 1 0) * 256 + b.getD 2 0) * 256 + b.getD 3 0

/-- Model of `self.buffpool.read_front(self.expect)`: the front `expect` bytes,
not consumed (the outer loop removes them when the next registration is
made). -/
def read_front (c : VncClient) : List Nat := c.buffpool.take c.expect

/-- Model of `self.update_event_handler(n, h)` of the client module: consumes the
`expect` front bytes just handled and registers the next
`(expected-count, handler)` pair. -/
def update_event_handler (c : VncClient) (n : Nat) (h : Handler) : VncClient :=
  { c with buffpool := c.buffpool.drop c.expect, expect := n, handler := h }

/-- Rust `str::split(',')`: split a character list at every separator,
keeping empty pieces (`""` yields `[""]`). -/
def splitOnChar (sep : Char) : List Char → List (List Char)
  | [] => [[]]
  | c :: cs =>
    match splitOnChar sep cs with
    | [] => [[]]
    | h :: t => if c = sep then [] :: h :: t else (c :: h) :: t

/-- Model of `self.sasl.mech_list.split(',')` as a list of strings. -/
def splitMechList (s : String) : List String :=
  (splitOnChar (',') s.data).map String.mk

/-- Model of `String::from_utf8_lossy(buf).to_string()` restricted to the ASCII
byte range the SASL mechanism grammar uses. -/
def bytesToString (bs : List Nat) : String := String.mk (bs.map Char.ofNat)

/-- The UTF-8 bytes of an (ASCII) string, as `str::as_bytes`. -/
def stringToBytes (s : String) : List Nat := s.data.map Char.toNat

/-- Model of `auth_reject` of auth.rs: append the reject frame — u32 big-endian `1`,
u32 big-endian reason length, reason bytes — to the pending reply. -/
def auth_reject (buf : List Nat) : List Nat :=
  buf ++ be32 1 ++ be32 (stringToBytes rejectReason).length ++ stringToBytes rejectReason

/-- The reply `client_sasl_auth` builds before inspecting the result code:
a u32 big-endian `serverout_len + 1` and the challenge bytes when the
challenge is non-empty, a u32 `0` otherwise, then the continuation byte
(`1` on `SASL_OK`, `0` on `SASL_CONTINUE`). -/
def challenge_reply (serverout : List Nat) (err : Int) : List Nat :=
  (if serverout.length > 0 then be32 (serverout.length + 1) ++ serverout else be32 0)
    ++ (if err = SASL_OK then [1] else if err = SASL_CONTINUE then [0] else [])

/-- Model of `sasl_check_ssf` of auth.rs. -/
def sasl_check_ssf (s : Sasl) (prop : SsfProp) : CheckResult :=
  if !s.want_ssf then ⟨s, [], Except.ok ()⟩
  else
    match prop with
    | SsfProp.getpropErr =>
      ⟨s, [Event.getpropSsf], Except.error (VncError.AuthFailed msgGetpropInternal)⟩
    | SsfProp.ok ssf =>
      if ssf < MIN_SSF_LENGTH then
        ⟨s, [Event.getpropSsf], Except.error (VncError.AuthFailed msgSsfTooWeak)⟩
      else
        ⟨{ s with run_ssf := 1 }, [Event.getpropSsf], Except.ok ()⟩

/-- Model of `sasl_check_authz` of auth.rs. -/
def sasl_check_authz (s : Sasl) (u : UserProp) : CheckResult :=
  match u with
  | UserProp.getpropErr =>
    ⟨s, [Event.getpropUsername], Except.error (VncError.AuthFailed msgCannotFetchUsername)⟩
  | UserProp.null =>
    ⟨s, [Event.getpropUsername], Except.error (VncError.AuthFailed msgNoUsername)⟩
  | UserProp.ok username =>
    if s.identity ≠ username then
      ⟨s, [Event.getpropUsername], Except.error (VncError.AuthFailed msgNoUsername)⟩
    else
      ⟨s, [Event.getpropUsername], Except.ok ()⟩

/-- Model of `get_mechname_length` of auth.rs. -/
def get_mechname_length (c : VncClient) : Outcome :=
  let len := from_be_bytes (read_front c)
  if len > MECHNAME_MAX_LEN then
    ⟨c, [], Except.error (VncError.AuthFailed msgMechTooLong)⟩
  else if len < MECHNAME_MIN_LEN then
    ⟨c, [], Except.error (VncError.AuthFailed msgMechTooShort)⟩
  else
    ⟨update_event_handler c len Handler.GetSaslMechname, [], Except.ok ()⟩

/-- Model of `get_sasl_mechname` of auth.rs.  The source's find-and-assign loop over
`mech_list.split(',')` is rendered as a membership test; the emptiness
check afterwards is on the (possibly just assigned) stored name, exactly as
in the source. -/
def get_sasl_mechname (c : VncClient) : Outcome :=
  let mech_name := bytesToString (read_front c)
  let sasl' :=
    if mech_name ∈ splitMechList c.sasl.mech_list then
      { c.sasl with mech_name := mech_name }
    else c.sasl
  if sasl'.mech_name = ("") then
    ⟨{ c with sasl := sasl' }, [], Except.error (VncError.AuthFailed msgUnsupportedMech)⟩
  else
    ⟨update_event_handler { c with sasl := sasl' } 4 Handler.GetAuthmessageLength, [],
      Except.ok ()⟩

/-- The `client_data` local of `client_sasl_auth`: the buffered bytes with
the trailing byte zeroed (treated as the C-string terminator) when any
bytes are expected. -/
def sasl_client_data (c : VncClient) : List Nat :=
  if c.expect > 0 then (read_front c).set (c.expect - 1) 0 else read_front c

/-- The `client_len` local of `client_sasl_auth`: `expect - 1` when any
bytes are expected, `0` otherwise. -/
def sasl_client_len (c : VncClient) : Nat :=
  if c.expect > 0 then c.expect - 1 else 0

/-- The provider exchange call `client_sasl_auth` performs:
`sasl_server_start` when the stage is `SaslServerStart`, `sasl_server_step`
otherwise, receiving `client_data` / `client_len`. -/
def exchEvent (c : VncClient) : Event :=
  if c.sasl.sasl_stage = SaslStage.SaslServerStart then
    Event.providerStart c.sasl.mech_name (sasl_client_data c) (sasl_client_len c)
  else
    Event.providerStep (sasl_client_data c) (sasl_client_len c)

/-- Model of `client_sasl_auth` of auth.rs.  One exchange round: call the provider
(`sasl_server_start` on the first round, `sasl_server_step` afterwards),
then either fail hard (disposing the session), continue the loop, or run
the finalize checks and accept/reject. -/
def client_sasl_auth (c : VncClient) (p : Provider) : Outcome :=
  let err := p.exchange.err
  let serverout := p.exchange.serverout
  let ev := exchEvent c
  if err ≠ SASL_OK ∧ err ≠ SASL_CONTINUE then
    ⟨{ c with sasl := { c.sasl with sasl_conn := none } }, [ev, Event.dispose],
      Except.error (VncError.AuthFailed msgAuthFailedText)⟩
  else if serverout.length > SASL_DATA_MAX_LEN then
    ⟨{ c with sasl := { c.sasl with sasl_conn := none } }, [ev, Event.dispose],
      Except.error (VncError.AuthFailed msgDataTooLong)⟩
  else
    let reply := challenge_reply serverout err
    if err = SASL_CONTINUE then
      ⟨update_event_handler
          { c with sasl := { c.sasl with sasl_stage := SaslStage.SaslServerStep } }
          4 Handler.GetAuthmessageLength,
        [ev], Except.ok ()⟩
    else
      let r1 := sasl_check_ssf c.sasl p.ssf
      match r1.result with
      | Except.error e =>
        ⟨{ c with sasl := r1.sasl }, [ev] ++ r1.events ++ [Event.write (auth_reject reply)],
          Except.error e⟩
      | Except.ok _ =>
        let r2 := sasl_check_authz r1.sasl p.username
        match r2.result with
        | Except.error e =>
          ⟨{ c with sasl := r2.sasl },
            [ev] ++ r1.events ++ r2.events ++ [Event.write (auth_reject reply)],
            Except.error e⟩
        | Except.ok _ =>
          ⟨update_event_handler { c with sasl := r2.sasl } 1 Handler.HandleClientInit,
            [ev] ++ r1.events ++ r2.events ++ [Event.write (reply ++ [0, 0, 0, 0])],
            Except.ok ()⟩

/-- Model of `get_authmessage_length` of auth.rs.  A zero length tail-calls
`client_sasl_auth` directly (no re-registration, `expect` untouched). -/
def get_authmessage_length (c : VncClient) (p : Provider) : Outcome :=
  let len := from_be_bytes (read_front c)
  if len > SASL_DATA_MAX_LEN then
    ⟨c, [], Except.error (VncError.AuthFailed msgStartLenTooLarge)⟩
  else if len = 0 then
    client_sasl_auth c p
  else
    ⟨update_event_handler c len Handler.ClientSaslAuth, [], Except.ok ()⟩

/-- One iteration of the outer I/O loop: deliver freshly read bytes and
invoke the registered handler.  `HandleClientInit` is the seam to the
post-authentication phase, outside this core. -/
def dispatch (c : VncClient) (p : Provider) : Outcome :=
  match c.handler with
  | Handler.GetMechnameLength => get_mechname_length c
  | Handler.GetSaslMechname => get_sasl_mechname c
  | Handler.GetAuthmessageLength => get_authmessage_length c p
  | Handler.ClientSaslAuth => client_sasl_auth c p
  | Handler.HandleClientInit => ⟨c, [], Except.ok ()⟩

/-- The outer event loop: each input is one delivery of bytes plus the
provider oracle for the round.  Stops on a handler error (terminal hard
failure) and once the post-authentication handler is registered. -/
def run (c : VncClient) : List (List Nat × Provider) → VncClient × List Event
  | [] => (c, [])
  | (bytes, p) :: rest =>
    if c.handler = Handler.HandleClientInit then (c, [])
    else
      let o := dispatch { c with buffpool := c.buffpool ++ bytes } p
      match o.result with
      | Except.error _ => (o.client, o.events)
      | Except.ok _ =>
        let r := run o.client rest
        (r.1, o.events ++ r.2)

/-- Modelled from the spec: the connection-teardown path lives in the
client module, which is not under src/ (only auth.rs is); per spec §3
(lifecycle) and §7, the owning context disposes the provider handle when
the handshake reaches a terminal state or the connection closes, and
`sasl_dispose` nulls the pointer, so an already-disposed handle is not
disposed again. -/
def teardown (c : VncClient) : VncClient × List Event :=
  match c.sasl.sasl_conn with
  | some _ => ({ c with sasl := { c.sasl with sasl_conn := none } }, [Event.dispose])
  | none => (c, [])

/-- The events of a whole handshake followed by connection teardown. -/
def fullTrace (c : VncClient) (inputs : List (List Nat × Provider)) : List Event :=
  (run c inputs).2 ++ (teardown (run c inputs).1).2

/-- Is the event a disposal of the provider handle? -/
def Event.isDispose : Event → Bool
  | Event.dispose => true
  | _ => false

/-- Does the event use the provider session handle? -/
def Event.usesProvider : Event → Bool
  | Event.providerStart _ _ _ => true
  | Event.providerStep _ _ => true
  | Event.getpropSsf => true
  | Event.getpropUsername => true
  | _ => false

/-- Is the event a `sasl_server_start` call? -/
def Event.isStart : Event → Bool
  | Event.providerStart _ _ _ => true
  | _ => false

/-- The payload byte count a provider exchange call receives. -/
def Event.payloadLen : Event → Option Nat
  | Event.providerStart _ _ n => some n
  | Event.providerStep _ n => some n
  | _ => none

/-- The payload bytes a provider exchange call receives a pointer to. -/
def Event.payloadData : Event → Option (List Nat)
  | Event.providerStart _ d _ => some d
  | Event.providerStep d _ => some d
  | _ => none

/-- Number of `dispose` events in a trace. -/
def disposeCount (tr : List Event) : Nat := (tr.filter Event.isDispose).length

/-- Number of `sasl_server_start` events in a trace. -/
def startCount (tr : List Event) : Nat := (tr.filter Event.isStart).length

/-- After the first disposal, no event uses the provider session. -/
def noUseAfterDispose : List Event → Bool
  | [] => true
  | e :: rest =>
    if e.isDispose then rest.all (fun x => !x.usesProvider)
    else noUseAfterDispose rest

/-- Did the handler round succeed? -/
def resOk : Except VncError Unit → Bool
  | Except.ok _ => true
  | Except.error _ => false

/-- A fresh length-reading client: `expect = 4` header bytes buffered,
default `Sasl` context, mechanism-length handler registered. -/
def lenClient (bs : List Nat) : VncClient :=
  { buffpool := bs, expect := 4, sasl := Sasl.default, handler := Handler.GetMechnameLength }

/-- An arbitrary provider oracle for rounds that never reach it. -/
def pAny : Provider :=
  { exchange := { err := 0, serverout := [] }, ssf := SsfProp.ok 0, username := UserProp.null }

theorem from_be_bytes_be32 (n : Nat) (h : n < 2 ^ 32) : from_be_bytes (be32 n) = n := by
  simp [from_be_bytes, be32]
  omega

/-- Claim C5: for every 4-byte big-endian mechanism-length header L, the
mechanism-length handler accepts — registering a read of L bytes to the
mechanism-name handler — iff `1 ≤ L ≤ 100`, and otherwise fails with the
mechanism-name-invalid error; in particular L = 0 and L = 101 are rejected
while L = 1 and L = 100 are accepted. -/
theorem C5_mechname_length_bounds (c : VncClient) :
    (resOk (get_mechname_length c).result = true ↔
      (MECHNAME_MIN_LEN ≤ from_be_bytes (read_front c) ∧
        from_be_bytes (read_front c) ≤ MECHNAME_MAX_LEN)) ∧
    (resOk (get_mechname_length c).result = true →
      (get_mechname_length c).client =
        update_event_handler c (from_be_bytes (read_front c)) Handler.GetSaslMechname) ∧
    (resOk (get_mechname_length c).result = false →
      (get_mechname_length c).result = Except.error (VncError.AuthFailed msgMechTooLong) ∨
      (get_mechname_length c).result = Except.error (VncError.AuthFailed msgMechTooShort)) ∧
    (resOk (get_mechname_length (lenClient (be32 0))).result = false ∧
      resOk (get_mechname_length (lenClient (be32 101))).result = false ∧
      resOk (get_mechname_length (lenClient (be32 1))).result = true ∧
      resOk (get_mechname_length (lenClient (be32 100))).result = true) := by
  by_cases h1 : from_be_bytes (read_front c) > MECHNAME_MAX_LEN
  · have he : get_mechname_length c =
        ⟨c, [], Except.error (VncError.AuthFailed msgMechTooLong)⟩ := by
      simp [get_mechname_length, h1]
    have h1' : from_be_bytes (read_front c) > 100 := h1
    refine ⟨?_, ?_, ?_, by decide⟩
    · rw [he]
      simp only [resOk, Bool.false_eq_true, false_iff, MECHNAME_MIN_LEN, MECHNAME_MAX_LEN]
      omega
    · rw [he]
      simp [resOk]
    · rw [he]
      simp [resOk]
  · by_cases h2 : from_be_bytes (read_front c) < MECHNAME_MIN_LEN
    · have he : get_mechname_length c =
          ⟨c, [], Except.error (VncError.AuthFailed msgMechTooShort)⟩ := by
        simp [get_mechname_length, h1, h2]
      have h2' : from_be_bytes (read_front c) < 1 := h2
      refine ⟨?_, ?_, ?_, by decide⟩
      · rw [he]
        simp only [resOk, Bool.false_eq_true, false_iff, MECHNAME_MIN_LEN, MECHNAME_MAX_LEN]
        omega
      · rw [he]
        simp [resOk]
      · rw [he]
        simp [resOk]
    · have he : get_mechname_length c =
          ⟨update_event_handler c (from_be_bytes (read_front c)) Handler.GetSaslMechname, [],
            Except.ok ()⟩ := by
        simp [get_mechname_length, h1, h2]
      have h1' : ¬ from_be_bytes (read_front c) > 100 := h1
      have h2' : ¬ from_be_bytes (read_front c) < 1 := h2
      refine ⟨?_, ?_, ?_, by decide⟩
      · rw [he]
        simp only [resOk, MECHNAME_MIN_LEN, MECHNAME_MAX_LEN, true_iff]
        omega
      · rw [he]
        simp [resOk]
      · rw [he]
        simp [resOk]

/-- Claim C10: when the length check of the mechanism-length handler or of
the response-length handler fails, the handler returns an error having
emitted no event, registered no new `(expect, handler)` pair, and mutated
nothing: the whole client state — dispatch pair and `Sasl` context — is
returned unchanged. -/
theorem C10_length_check_frame (c : VncClient) (p : Provider) :
    (from_be_bytes (read_front c) > MECHNAME_MAX_LEN ∨
        from_be_bytes (read_front c) < MECHNAME_MIN_LEN →
      (get_mechname_length c).client = c ∧ (get_mechname_length c).events = [] ∧
        resOk (get_mechname_length c).result = false) ∧
    (from_be_bytes (read_front c) > SASL_DATA_MAX_LEN →
      (get_authmessage_length c p).client = c ∧ (get_authmessage_length c p).events = [] ∧
        resOk (get_authmessage_length c p).result = false) := by
  constructor
  · rintro (h1 | h2)
    · simp [get_mechname_length, h1, resOk]
    · by_cases h1 : from_be_bytes (read_front c) > MECHNAME_MAX_LEN
      · simp [get_mechname_length, h1, resOk]
      · simp [get_mechname_length, h1, h2, resOk]
  · intro h
    simp [get_authmessage_length, h, resOk]

theorem C10_length_check_frame_witness :
    ((get_mechname_length (lenClient (be32 101))).client = lenClient (be32 101) ∧
      (get_mechname_length (lenClient (be32 101))).events = [] ∧
      resOk (get_mechname_length (lenClient (be32 101))).result = false) ∧
    ((get_authmessage_length (lenClient (be32 1048577)) pAny).client =
        lenClient (be32 1048577) ∧
      (get_authmessage_length (lenClient (be32 1048577)) pAny).events = [] ∧
      resOk (get_authmessage_length (lenClient (be32 1048577)) pAny).result = false) :=
  ⟨(C10_length_check_frame (lenClient (be32 101)) pAny).1 (Or.inl (by decide)),
    (C10_length_check_frame (lenClient (be32 1048577)) pAny).2 (by decide)⟩

/-- A finalize-stage `Sasl` context that requested the provider security
layer. -/
def ssfSasl : Sasl := { Sasl.default with sasl_conn := some (), want_ssf := true }

/-- Claim C2, counterexample: with the security layer requested and the
provider reporting a negotiated strength factor of 256, the check passes
but records the constant 1 — not the negotiated strength 256 the claim
says is recorded. -/
theorem C2_ssf_flag_cex :
    resOk (sasl_check_ssf ssfSasl (SsfProp.ok 256)).result = true ∧
    (sasl_check_ssf ssfSasl (SsfProp.ok 256)).sasl.run_ssf = 1 ∧
    ¬ (sasl_check_ssf ssfSasl (SsfProp.ok 256)).sasl.run_ssf = 256 := by decide

/-- Claim C2 (amended): the strength check is evaluated only when the
connection requested a provider-managed security layer (`want_ssf`);
when evaluated it queries the strength-factor property, fails with the
too-weak error exactly when the reported value is below 56, fails with a
distinct internal error when the query itself fails, and on pass sets the
recorded strength field to the constant 1 (a passed-flag, not the
provider-reported value); the field is 0 in the initial context. -/
theorem C2_strength_check (s : Sasl) (prop : SsfProp) :
    (s.want_ssf = false → sasl_check_ssf s prop = ⟨s, [], Except.ok ()⟩) ∧
    (s.want_ssf = true → ∀ v, prop = SsfProp.ok v →
      (((sasl_check_ssf s prop).result =
          Except.error (VncError.AuthFailed msgSsfTooWeak)) ↔ v < MIN_SSF_LENGTH) ∧
      (MIN_SSF_LENGTH ≤ v →
        sasl_check_ssf s prop =
          ⟨{ s with run_ssf := 1 }, [Event.getpropSsf], Except.ok ()⟩)) ∧
    (s.want_ssf = true → prop = SsfProp.getpropErr →
      (sasl_check_ssf s prop).result =
        Except.error (VncError.AuthFailed msgGetpropInternal)) ∧
    Sasl.default.run_ssf = 0 := by
  refine ⟨?_, ?_, ?_, rfl⟩
  · intro h
    simp [sasl_check_ssf, h]
  · intro h v hv
    subst hv
    by_cases hw : v < MIN_SSF_LENGTH
    · constructor
      · simp [sasl_check_ssf, h, hw]
      · omega
    · constructor
      · simp only [sasl_check_ssf, h, Bool.not_true, Bool.false_eq_true, if_false, if_neg hw]
        constructor
        · intro hh
          exact absurd hh (by simp)
        · omega
      · intro _
        simp [sasl_check_ssf, h, hw]
  · intro h hp
    subst hp
    simp [sasl_check_ssf, h]

theorem C2_strength_check_witness :
    sasl_check_ssf ssfSasl (SsfProp.ok 100) =
      ⟨{ ssfSasl with run_ssf := 1 }, [Event.getpropSsf], Except.ok ()⟩ :=
  ((C2_strength_check ssfSasl (SsfProp.ok 100)).2.1 rfl 100 rfl).2 (by decide)

/-- Claim C4: mechanism selection succeeds iff the client-offered name is
byte-exactly equal to an element of the advertised list split on commas
(so a case variant or proper substring of an element fails with the
unsupported-mechanism error); on success the stored mechanism name is the
non-empty offered name and a read of 4 bytes is registered to the
response-length handler.  The hypotheses fix the state from which the
handler runs: no mechanism stored yet, and a non-empty offered name (the
mechanism-length handler already enforced a length of at least 1). -/
theorem C4_mech_selection (c : VncClient)
    (h0 : c.sasl.mech_name = (""))
    (h1 : ¬ bytesToString (read_front c) = ("")) :
    (resOk (get_sasl_mechname c).result = true ↔
      bytesToString (read_front c) ∈ splitMechList c.sasl.mech_list) ∧
    (resOk (get_sasl_mechname c).result = true →
      (get_sasl_mechname c).client.sasl.mech_name = bytesToString (read_front c) ∧
      ¬ (get_sasl_mechname c).client.sasl.mech_name = ("") ∧
      (get_sasl_mechname c).client.expect = 4 ∧
      (get_sasl_mechname c).client.handler = Handler.GetAuthmessageLength) ∧
    (resOk (get_sasl_mechname c).result = false →
      (get_sasl_mechname c).result = Except.error (VncError.AuthFailed msgUnsupportedMech)) := by
  by_cases hm : bytesToString (read_front c) ∈ splitMechList c.sasl.mech_list
  · have he : get_sasl_mechname c =
        ⟨update_event_handler
            { c with sasl := { c.sasl with mech_name := bytesToString (read_front c) } }
            4 Handler.GetAuthmessageLength, [], Except.ok ()⟩ := by
      simp [get_sasl_mechname, hm, h1]
    rw [he]
    refine ⟨by simp [resOk, hm], ?_, by simp [resOk]⟩
    intro _
    exact ⟨rfl, h1, rfl, rfl⟩
  · have he : get_sasl_mechname c =
        ⟨c, [], Except.error (VncError.AuthFailed msgUnsupportedMech)⟩ := by
      simp [get_sasl_mechname, hm, h0]
    rw [he]
    exact ⟨by simp [resOk, hm], by simp [resOk], by simp [resOk]⟩

/-- A client at the mechanism-name step, offering the ASCII bytes of
PLAIN against an advertised list PLAIN,ANONYMOUS. -/
def mechClient : VncClient :=
  { buffpool := [80, 76, 65, 73, 78], expect := 5,
    sasl := { Sasl.default with mech_list := ("PLAIN,ANONYMOUS"), sasl_conn := some () },
    handler := Handler.GetSaslMechname }

theorem C4_mech_selection_witness :
    (resOk (get_sasl_mechname mechClient).result = true ↔
      bytesToString (read_front mechClient) ∈ splitMechList mechClient.sasl.mech_list) ∧
    (resOk (get_sasl_mechname mechClient).result = true →
      (get_sasl_mechname mechClient).client.sasl.mech_name =
        bytesToString (read_front mechClient) ∧
      ¬ (get_sasl_mechname mechClient).client.sasl.mech_name = ("") ∧
      (get_sasl_mechname mechClient).client.expect = 4 ∧
      (get_sasl_mechname mechClient).client.handler = Handler.GetAuthmessageLength) ∧
    (resOk (get_sasl_mechname mechClient).result = false →
      (get_sasl_mechname mechClient).result =
        Except.error (VncError.AuthFailed msgUnsupportedMech)) :=
  C4_mech_selection mechClient (by decide) (by decide)

/-- Modelled from the spec: the wire layout of the server-challenge
message (spec §6: u32 length-or-0 big-endian, challenge bytes, u8
continuation flag); the decoder is the connecting client, outside this
repository.  The length field is read from the first four bytes. -/
def decode_reply_len (m : List Nat) : Nat := from_be_bytes (m.take 4)

/-- Modelled from the spec: the continuation flag of a server-challenge
message is its final byte. -/
def decode_reply_flag (m : List Nat) : Option Nat := m.getLast?

/-- Claim C9: for a non-empty server challenge of length K and a
continuation flag (1 = complete on `SASL_OK`, 0 = continue on
`SASL_CONTINUE`), the encoded reply is the 4-byte big-endian length K + 1,
the K challenge bytes, then the flag byte — and with an empty challenge a
4-byte zero length field then the flag byte; decoding the encoded reply
recovers the length field K + 1 and the original flag. -/
theorem C9_challenge_reply_roundtrip (serverout : List Nat) (err : Int)
    (hne : serverout ≠ [])
    (hlen : serverout.length ≤ SASL_DATA_MAX_LEN)
    (herr : err = SASL_OK ∨ err = SASL_CONTINUE) :
    challenge_reply serverout err =
      be32 (serverout.length + 1) ++ serverout ++ [if err = SASL_OK then 1 else 0] ∧
    decode_reply_len (challenge_reply serverout err) = serverout.length + 1 ∧
    decode_reply_flag (challenge_reply serverout err) =
      some (if err = SASL_OK then 1 else 0) ∧
    (∀ e2, e2 = SASL_OK ∨ e2 = SASL_CONTINUE →
      challenge_reply [] e2 = be32 0 ++ [if e2 = SASL_OK then 1 else 0]) := by
  have hpos : serverout.length > 0 := List.length_pos.mpr hne
  have hflag : (if err = SASL_OK then ([1] : List Nat)
      else if err = SASL_CONTINUE then [0] else []) = [if err = SASL_OK then 1 else 0] := by
    rcases herr with h | h <;> (subst h; decide)
  have henc : challenge_reply serverout err =
      be32 (serverout.length + 1) ++ serverout ++ [if err = SASL_OK then 1 else 0] := by
    simp [challenge_reply, hpos, hflag]
  refine ⟨henc, ?_, ?_, ?_⟩
  · rw [henc]
    have h4 : ((be32 (serverout.length + 1) ++ serverout) ++
        [if err = SASL_OK then 1 else 0]).take 4 = be32 (serverout.length + 1) := by
      rw [List.append_assoc]
      exact List.take_left' rfl
    simp only [decode_reply_len, h4]
    apply from_be_bytes_be32
    have hd : SASL_DATA_MAX_LEN = 1048576 := rfl
    rw [hd] at hlen
    omega
  · rw [henc]
    simp only [decode_reply_flag]
    exact List.getLast?_concat _
  · intro e2 he2
    rcases he2 with h | h <;> (subst h; decide)

theorem C9_challenge_reply_roundtrip_witness :
    decode_reply_len (challenge_reply [7, 8] SASL_OK) = [7, 8].length + 1 ∧
    decode_reply_flag (challenge_reply [7, 8] SASL_OK) =
      some (if SASL_OK = SASL_OK then 1 else 0) :=
  ⟨(C9_challenge_reply_roundtrip [7, 8] SASL_OK (by decide) (by decide) (Or.inl rfl)).2.1,
    (C9_challenge_reply_roundtrip [7, 8] SASL_OK (by decide) (by decide) (Or.inl rfl)).2.2.1⟩

theorem csa_provider_err (c : VncClient) (p : Provider)
    (h : p.exchange.err ≠ SASL_OK ∧ p.exchange.err ≠ SASL_CONTINUE) :
    client_sasl_auth c p =
      ⟨{ c with sasl := { c.sasl with sasl_conn := none } }, [exchEvent c, Event.dispose],
        Except.error (VncError.AuthFailed msgAuthFailedText)⟩ := by
  simp [client_sasl_auth, h]

theorem csa_too_long (c : VncClient) (p : Provider)
    (h1 : p.exchange.err = SASL_OK ∨ p.exchange.err = SASL_CONTINUE)
    (h2 : p.exchange.serverout.length > SASL_DATA_MAX_LEN) :
    client_sasl_auth c p =
      ⟨{ c with sasl := { c.sasl with sasl_conn := none } }, [exchEvent c, Event.dispose],
        Except.error (VncError.AuthFailed msgDataTooLong)⟩ := by
  rcases h1 with h | h <;> simp [client_sasl_auth, h, h2, SASL_OK, SASL_CONTINUE]

theorem csa_continue (c : VncClient) (p : Provider)
    (h : p.exchange.err = SASL_CONTINUE)
    (h2 : ¬ p.exchange.serverout.length > SASL_DATA_MAX_LEN) :
    client_sasl_auth c p =
      ⟨update_event_handler
          { c with sasl := { c.sasl with sasl_stage := SaslStage.SaslServerStep } }
          4 Handler.GetAuthmessageLength,
        [exchEvent c], Except.ok ()⟩ := by
  simp [client_sasl_auth, h, h2, SASL_OK, SASL_CONTINUE]

theorem csa_complete_ssf_fail (c : VncClient) (p : Provider) (e : VncError)
    (h : p.exchange.err = SASL_OK)
    (h2 : ¬ p.exchange.serverout.length > SASL_DATA_MAX_LEN)
    (h3 : (sasl_check_ssf c.sasl p.ssf).result = Except.error e) :
    client_sasl_auth c p =
      ⟨{ c with sasl := (sasl_check_ssf c.sasl p.ssf).sasl },
        [exchEvent c] ++ (sasl_check_ssf c.sasl p.ssf).events ++
          [Event.write (auth_reject (challenge_reply p.exchange.serverout SASL_OK))],
        Except.error e⟩ := by
  simp [client_sasl_auth, h, h2, SASL_OK, SASL_CONTINUE, h3]

theorem csa_complete_authz_fail (c : VncClient) (p : Provider) (e : VncError)
    (h : p.exchange.err = SASL_OK)
    (h2 : ¬ p.exchange.serverout.length > SASL_DATA_MAX_LEN)
    (h3 : (sasl_check_ssf c.sasl p.ssf).result = Except.ok ())
    (h4 : (sasl_check_authz (sasl_check_ssf c.sasl p.ssf).sasl p.username).result =
      Except.error e) :
    client_sasl_auth c p =
      ⟨{ c with sasl := (sasl_check_authz (sasl_check_ssf c.sasl p.ssf).sasl p.username).sasl },
        [exchEvent c] ++ (sasl_check_ssf c.sasl p.ssf).events ++
          (sasl_check_authz (sasl_check_ssf c.sasl p.ssf).sasl p.username).events ++
          [Event.write (auth_reject (challenge_reply p.exchange.serverout SASL_OK))],
        Except.error e⟩ := by
  simp [client_sasl_auth, h, h2, SASL_OK, SASL_CONTINUE, h3, h4]

theorem csa_complete_ok (c : VncClient) (p : Provider)
    (h : p.exchange.err = SASL_OK)
    (h2 : ¬ p.exchange.serverout.length > SASL_DATA_MAX_LEN)
    (h3 : (sasl_check_ssf c.sasl p.ssf).result = Except.ok ())
    (h4 : (sasl_check_authz (sasl_check_ssf c.sasl p.ssf).sasl p.username).result =
      Except.ok ()) :
    client_sasl_auth c p =
      ⟨update_event_handler
          { c with sasl := (sasl_check_authz (sasl_check_ssf c.sasl p.ssf).sasl p.username).sasl }
          1 Handler.HandleClientInit,
        [exchEvent c] ++ (sasl_check_ssf c.sasl p.ssf).events ++
          (sasl_check_authz (sasl_check_ssf c.sasl p.ssf).sasl p.username).events ++
          [Event.write (challenge_reply p.exchange.serverout SASL_OK ++ [0, 0, 0, 0])],
        Except.ok ()⟩ := by
  simp [client_sasl_auth, h, h2, SASL_OK, SASL_CONTINUE, h3, h4]

theorem check_ssf_err_shape (s : Sasl) (pr : SsfProp) (e : VncError)
    (h : (sasl_check_ssf s pr).result = Except.error e) :
    e = VncError.AuthFailed msgGetpropInternal ∨ e = VncError.AuthFailed msgSsfTooWeak := by
  by_cases hw : s.want_ssf
  · rcases pr with _ | v
    · simp [sasl_check_ssf, hw] at h
      exact Or.inl h.symm
    · by_cases hv : v < MIN_SSF_LENGTH
      · simp [sasl_check_ssf, hw, hv] at h
        exact Or.inr h.symm
      · simp [sasl_check_ssf, hw, hv] at h
  · simp [sasl_check_ssf, hw] at h

theorem check_authz_err_shape (s : Sasl) (u : UserProp) (e : VncError)
    (h : (sasl_check_authz s u).result = Except.error e) :
    e = VncError.AuthFailed msgCannotFetchUsername ∨ e = VncError.AuthFailed msgNoUsername := by
  rcases u with _ | _ | name
  · simp [sasl_check_authz] at h
    exact Or.inl h.symm
  · simp [sasl_check_authz] at h
    exact Or.inr h.symm
  · by_cases hi : s.identity = name
    · simp [sasl_check_authz, hi] at h
    · simp [sasl_check_authz, hi] at h
      exact Or.inr h.symm

theorem csa_events_head (c : VncClient) (p : Provider) :
    (client_sasl_auth c p).events.head? = some (exchEvent c) := by
  by_cases hOK : p.exchange.err = SASL_OK
  · by_cases h2 : p.exchange.serverout.length > SASL_DATA_MAX_LEN
    · rw [csa_too_long c p (Or.inl hOK) h2]
      simp
    · rcases h3 : (sasl_check_ssf c.sasl p.ssf).result with e1 | u
      · rw [csa_complete_ssf_fail c p e1 hOK h2 h3]
        simp
      · cases u
        rcases h4 : (sasl_check_authz (sasl_check_ssf c.sasl p.ssf).sasl p.username).result
            with e2 | u2
        · rw [csa_complete_authz_fail c p e2 hOK h2 h3 h4]
          simp
        · cases u2
          rw [csa_complete_ok c p hOK h2 h3 h4]
          simp
  · by_cases hC : p.exchange.err = SASL_CONTINUE
    · by_cases h2 : p.exchange.serverout.length > SASL_DATA_MAX_LEN
      · rw [csa_too_long c p (Or.inr hC) h2]
        simp
      · rw [csa_continue c p hC h2]
        simp
    · rw [csa_provider_err c p ⟨hOK, hC⟩]
      simp

/-- A finalize-round client over a pre-encrypted transport (no provider
security layer requested), configured identity admin, PLAIN selected. -/
def cFin : VncClient :=
  { buffpool := [0, 0, 0, 0], expect := 4, handler := Handler.ClientSaslAuth,
    sasl :=
      { Sasl.default with
          sasl_conn := some (), mech_name := ("PLAIN"), identity := ("admin") } }

/-- A provider oracle completing the exchange with a matching principal. -/
def pFinOk : Provider :=
  { exchange := { err := 0, serverout := [5] }, ssf := SsfProp.ok 0,
    username := UserProp.ok ("admin") }

/-- Claim C1: for a completed exchange (provider returns `SASL_OK` with a
challenge within bounds) the client is admitted iff both the strength
check and the identity check pass; on either failure the reject frame —
4-byte big-endian 1, 4-byte reason length, fixed non-empty UTF-8 reason —
is appended to the pending reply and written before the originating check
error is returned (never a bare drop); on success a 4-byte 0 accept value
is appended, the reply written, and a read of 1 byte is registered to the
post-authentication handler. -/
theorem C1_finalize (c : VncClient) (p : Provider)
    (hok : p.exchange.err = SASL_OK)
    (hlen : p.exchange.serverout.length ≤ SASL_DATA_MAX_LEN) :
    (resOk (client_sasl_auth c p).result = true ↔
      (resOk (sasl_check_ssf c.sasl p.ssf).result = true ∧
        resOk (sasl_check_authz (sasl_check_ssf c.sasl p.ssf).sasl p.username).result =
          true)) ∧
    (∀ e, (client_sasl_auth c p).result = Except.error e →
      (client_sasl_auth c p).events.getLast? =
        some (Event.write (auth_reject (challenge_reply p.exchange.serverout SASL_OK))) ∧
      (resOk (sasl_check_ssf c.sasl p.ssf).result = false →
        (sasl_check_ssf c.sasl p.ssf).result = Except.error e) ∧
      (resOk (sasl_check_ssf c.sasl p.ssf).result = true →
        (sasl_check_authz (sasl_check_ssf c.sasl p.ssf).sasl p.username).result =
          Except.error e)) ∧
    (resOk (client_sasl_auth c p).result = true →
      (client_sasl_auth c p).events.getLast? =
        some (Event.write (challenge_reply p.exchange.serverout SASL_OK ++ [0, 0, 0, 0])) ∧
      (client_sasl_auth c p).client.expect = 1 ∧
      (client_sasl_auth c p).client.handler = Handler.HandleClientInit) ∧
    auth_reject (challenge_reply p.exchange.serverout SASL_OK) =
      challenge_reply p.exchange.serverout SASL_OK ++ be32 1 ++
        be32 (stringToBytes rejectReason).length ++ stringToBytes rejectReason ∧
    ¬ stringToBytes rejectReason = [] := by
  have h2 : ¬ p.exchange.serverout.length > SASL_DATA_MAX_LEN := not_lt.mpr hlen
  rcases h3 : (sasl_check_ssf c.sasl p.ssf).result with e1 | u
  · have he := csa_complete_ssf_fail c p e1 hok h2 h3
    rw [he]
    refine ⟨by simp [resOk, h3], ?_, by simp [resOk], rfl, by decide⟩
    intro e hee
    have he1 : e1 = e := Except.error.inj hee
    subst he1
    refine ⟨List.getLast?_concat _, fun _ => rfl, fun hcontra => ?_⟩
    simp [resOk] at hcontra
  · cases u
    rcases h4 : (sasl_check_authz (sasl_check_ssf c.sasl p.ssf).sasl p.username).result
        with e2 | u2
    · have he := csa_complete_authz_fail c p e2 hok h2 h3 h4
      rw [he]
      refine ⟨by simp [resOk, h3, h4], ?_, by simp [resOk], rfl, by decide⟩
      intro e hee
      have he2 : e2 = e := Except.error.inj hee
      subst he2
      refine ⟨List.getLast?_concat _, fun hcontra => ?_, fun _ => rfl⟩
      simp [resOk] at hcontra
    · cases u2
      have he := csa_complete_ok c p hok h2 h3 h4
      rw [he]
      refine ⟨by simp [resOk, h3, h4], ?_, ?_, rfl, by decide⟩
      · intro e hee
        exact absurd hee (by simp)
      · intro _
        exact ⟨List.getLast?_concat _, rfl, rfl⟩

theorem C1_finalize_witness :
    resOk (client_sasl_auth cFin pFinOk).result = true ↔
      (resOk (sasl_check_ssf cFin.sasl pFinOk.ssf).result = true ∧
        resOk (sasl_check_authz (sasl_check_ssf cFin.sasl pFinOk.ssf).sasl
            pFinOk.username).result = true) :=
  (C1_finalize cFin pFinOk rfl (by decide)).1

theorem csa_error_shape (c : VncClient) (p : Provider) (e : VncError)
    (h : (client_sasl_auth c p).result = Except.error e) :
    e = VncError.AuthFailed msgAuthFailedText ∨
    e = VncError.AuthFailed msgDataTooLong ∨
    e = VncError.AuthFailed msgGetpropInternal ∨
    e = VncError.AuthFailed msgSsfTooWeak ∨
    e = VncError.AuthFailed msgCannotFetchUsername ∨
    e = VncError.AuthFailed msgNoUsername := by
  by_cases hOK : p.exchange.err = SASL_OK
  · by_cases h2 : p.exchange.serverout.length > SASL_DATA_MAX_LEN
    · rw [csa_too_long c p (Or.inl hOK) h2] at h
      exact Or.inr (Or.inl (Except.error.inj h).symm)
    · rcases h3 : (sasl_check_ssf c.sasl p.ssf).result with e1 | u
      · rw [csa_complete_ssf_fail c p e1 hOK h2 h3] at h
        have he1 : e1 = e := Except.error.inj h
        subst he1
        rcases check_ssf_err_shape _ _ _ h3 with hs | hs
        · exact Or.inr (Or.inr (Or.inl hs))
        · exact Or.inr (Or.inr (Or.inr (Or.inl hs)))
      · cases u
        rcases h4 : (sasl_check_authz (sasl_check_ssf c.sasl p.ssf).sasl p.username).result
            with e2 | u2
        · rw [csa_complete_authz_fail c p e2 hOK h2 h3 h4] at h
          have he2 : e2 = e := Except.error.inj h
          subst he2
          rcases check_authz_err_shape _ _ _ h4 with hs | hs
          · exact Or.inr (Or.inr (Or.inr (Or.inr (Or.inl hs))))
          · exact Or.inr (Or.inr (Or.inr (Or.inr (Or.inr hs))))
        · cases u2
          rw [csa_complete_ok c p hOK h2 h3 h4] at h
          exact absurd h (by simp)
  · by_cases hC : p.exchange.err = SASL_CONTINUE
    · by_cases h2 : p.exchange.serverout.length > SASL_DATA_MAX_LEN
      · rw [csa_too_long c p (Or.inr hC) h2] at h
        exact Or.inr (Or.inl (Except.error.inj h).symm)
      · rw [csa_continue c p hC h2] at h
        exact absurd h (by simp)
    · rw [csa_provider_err c p ⟨hOK, hC⟩] at h
      exact Or.inl (Except.error.inj h).symm

theorem csa_no_data_too_long_of_le (c : VncClient) (p : Provider)
    (herr : p.exchange.err = SASL_OK ∨ p.exchange.err = SASL_CONTINUE)
    (h2 : ¬ p.exchange.serverout.length > SASL_DATA_MAX_LEN) :
    ¬ (client_sasl_auth c p).result = Except.error (VncError.AuthFailed msgDataTooLong) := by
  rcases herr with hOK | hC
  · rcases h3 : (sasl_check_ssf c.sasl p.ssf).result with e1 | u
    · rw [csa_complete_ssf_fail c p e1 hOK h2 h3]
      intro hh
      have he1 : e1 = VncError.AuthFailed msgDataTooLong := Except.error.inj hh
      rcases check_ssf_err_shape _ _ _ h3 with h | h <;> rw [he1] at h <;>
        exact absurd h (by decide)
    · cases u
      rcases h4 : (sasl_check_authz (sasl_check_ssf c.sasl p.ssf).sasl p.username).result
          with e2 | u2
      · rw [csa_complete_authz_fail c p e2 hOK h2 h3 h4]
        intro hh
        have he2 : e2 = VncError.AuthFailed msgDataTooLong := Except.error.inj hh
        rcases check_authz_err_shape _ _ _ h4 with h | h <;> rw [he2] at h <;>
          exact absurd h (by decide)
      · cases u2
        rw [csa_complete_ok c p hOK h2 h3 h4]
        simp
  · rw [csa_continue c p hC h2]
    simp

/-- Claim C6: a client-response length header L is accepted iff
`L ≤ 1048576` (the response-length handler fails with the too-large error
exactly when `L > 1048576`, and otherwise registers a read of L bytes for
positive L); a provider-returned challenge is accepted iff its length is
at most 1048576, the exchange failing with the too-large error exactly
when it exceeds the bound, in which case the provider session is disposed
— the events end at the dispose, the handle is nulled — before the
failure is returned. -/
theorem C6_data_length_cap (c : VncClient) (p : Provider) :
    ((get_authmessage_length c p).result =
        Except.error (VncError.AuthFailed msgStartLenTooLarge) ↔
      from_be_bytes (read_front c) > SASL_DATA_MAX_LEN) ∧
    (¬ from_be_bytes (read_front c) > SASL_DATA_MAX_LEN →
      ¬ from_be_bytes (read_front c) = 0 →
      get_authmessage_length c p =
        ⟨update_event_handler c (from_be_bytes (read_front c)) Handler.ClientSaslAuth, [],
          Except.ok ()⟩) ∧
    ((p.exchange.err = SASL_OK ∨ p.exchange.err = SASL_CONTINUE) →
      ((client_sasl_auth c p).result = Except.error (VncError.AuthFailed msgDataTooLong) ↔
        p.exchange.serverout.length > SASL_DATA_MAX_LEN)) ∧
    (p.exchange.serverout.length > SASL_DATA_MAX_LEN →
      (client_sasl_auth c p).events = [exchEvent c, Event.dispose] ∧
      (client_sasl_auth c p).client.sasl.sasl_conn = none) := by
  refine ⟨?_, ?_, ?_, ?_⟩
  · by_cases hl : from_be_bytes (read_front c) > SASL_DATA_MAX_LEN
    · simp [get_authmessage_length, hl]
    · constructor
      · intro hh
        exfalso
        by_cases h0 : from_be_bytes (read_front c) = 0
        · have he : get_authmessage_length c p = client_sasl_auth c p := by
            simp [get_authmessage_length, hl, h0]
          rw [he] at hh
          rcases hres : (client_sasl_auth c p).result with e | u
          · rw [hres] at hh
            have hsh := csa_error_shape c p e hres
            have hmsg : e = VncError.AuthFailed msgStartLenTooLarge := Except.error.inj hh
            rw [hmsg] at hsh
            rcases hsh with h | h | h | h | h | h <;> exact absurd h (by decide)
          · rw [hres] at hh
            exact Except.noConfusion hh
        · have he : get_authmessage_length c p =
              ⟨update_event_handler c (from_be_bytes (read_front c)) Handler.ClientSaslAuth,
                [], Except.ok ()⟩ := by
            simp [get_authmessage_length, hl, h0]
          rw [he] at hh
          exact Except.noConfusion hh
      · intro hl2
        exact absurd hl2 hl
  · intro hl h0
    simp [get_authmessage_length, hl, h0]
  · intro herr
    constructor
    · intro hh
      by_contra h2
      exact csa_no_data_too_long_of_le c p herr h2 hh
    · intro h2
      rw [csa_too_long c p herr h2]
  · intro h2
    by_cases hOK : p.exchange.err = SASL_OK
    · rw [csa_too_long c p (Or.inl hOK) h2]
      exact ⟨rfl, rfl⟩
    · by_cases hC : p.exchange.err = SASL_CONTINUE
      · rw [csa_too_long c p (Or.inr hC) h2]
        exact ⟨rfl, rfl⟩
      · rw [csa_provider_err c p ⟨hOK, hC⟩]
        exact ⟨rfl, rfl⟩

/-- A response-length client whose header encodes 1048577. -/
def bigLenClient : VncClient :=
  { buffpool := be32 1048577, expect := 4, sasl := Sasl.default,
    handler := Handler.GetAuthmessageLength }

/-- A provider returning an oversized challenge of 1048577 bytes. -/
def pBig : Provider :=
  { exchange := { err := 0, serverout := List.replicate 1048577 0 },
    ssf := SsfProp.ok 0, username := UserProp.null }

theorem C6_data_length_cap_witness :
    ((get_authmessage_length bigLenClient pAny).result =
        Except.error (VncError.AuthFailed msgStartLenTooLarge) ↔
      from_be_bytes (read_front bigLenClient) > SASL_DATA_MAX_LEN) ∧
    ((client_sasl_auth cFin pBig).events = [exchEvent cFin, Event.dispose] ∧
      (client_sasl_auth cFin pBig).client.sasl.sasl_conn = none) :=
  ⟨(C6_data_length_cap bigLenClient pAny).1,
    (C6_data_length_cap cFin pBig).2.2.2
      (by
        have h : pBig.exchange.serverout.length = 1048577 :=
          List.length_replicate 1048577 0
        rw [h]
        decide)⟩

/-- A response-length round that has just read a zero length header: the
4 header bytes are still at the buffer front and `expect` is still 4. -/
def c7zero : VncClient :=
  { buffpool := [0, 0, 0, 0], expect := 4,
    sasl := { Sasl.default with sasl_conn := some (), mech_name := ("PLAIN") },
    handler := Handler.GetAuthmessageLength }

/-- A provider continuing the exchange with challenge byte 5. -/
def p7cont : Provider :=
  { exchange := { err := 1, serverout := [5] }, ssf := SsfProp.ok 0,
    username := UserProp.null }

/-- Claim C7, counterexample: on a zero response-length header the
exchange step is entered directly, but the provider receives a payload of
3 bytes — `expect - 1` with `expect` still the header's 4 — not the
empty payload (zero client-data bytes) the claim states. -/
theorem C7_zero_payload_cex :
    ((get_authmessage_length c7zero p7cont).events.head?.bind Event.payloadLen) = some 3 ∧
    ¬ ((get_authmessage_length c7zero p7cont).events.head?.bind Event.payloadLen) =
      some 0 := by decide

/-- Claim C7 (amended): when the response-length header is exactly 0 the
handler proceeds directly to the exchange step without registering any
further read; but because the registered expected count is still that of
the 4-byte header, the exchange step re-reads those header bytes, so the
provider receives `expect - 1` payload bytes — the header bytes with the
last zeroed — rather than an empty payload. -/
theorem C7_zero_length_shortcut (c : VncClient) (p : Provider)
    (hlen : from_be_bytes (read_front c) = 0) :
    get_authmessage_length c p = client_sasl_auth c p ∧
    (client_sasl_auth c p).events.head? = some (exchEvent c) ∧
    (¬ c.expect = 0 →
      Event.payloadLen (exchEvent c) = some (c.expect - 1) ∧
      Event.payloadData (exchEvent c) = some ((read_front c).set (c.expect - 1) 0)) := by
  refine ⟨?_, csa_events_head c p, ?_⟩
  · have h1 : ¬ from_be_bytes (read_front c) > SASL_DATA_MAX_LEN := by
      rw [hlen]
      simp
    simp [get_authmessage_length, h1, hlen]
  · intro hx
    have hx' : c.expect > 0 := Nat.pos_of_ne_zero hx
    unfold exchEvent sasl_client_data sasl_client_len
    by_cases hs : c.sasl.sasl_stage = SaslStage.SaslServerStart <;>
      simp [hs, Event.payloadLen, Event.payloadData, hx']

theorem C7_zero_length_shortcut_witness :
    get_authmessage_length c7zero p7cont = client_sasl_auth c7zero p7cont :=
  (C7_zero_length_shortcut c7zero p7cont (by decide)).1

theorem exchEvent_isDispose (c : VncClient) : (exchEvent c).isDispose = false := by
  unfold exchEvent
  by_cases hs : c.sasl.sasl_stage = SaslStage.SaslServerStart <;> simp [hs, Event.isDispose]

theorem disposeCount_append (a b : List Event) :
    disposeCount (a ++ b) = disposeCount a + disposeCount b := by
  simp [disposeCount, List.filter_append]

theorem startCount_append (a b : List Event) :
    startCount (a ++ b) = startCount a + startCount b := by
  simp [startCount, List.filter_append]

theorem disposeCount_eq_zero (a : List Event) (h : ∀ e ∈ a, e.isDispose = false) :
    disposeCount a = 0 := by
  unfold disposeCount
  rw [List.length_eq_zero, List.filter_eq_nil_iff]
  intro e he
  simp [h e he]

theorem startCount_eq_zero (a : List Event) (h : ∀ e ∈ a, e.isStart = false) :
    startCount a = 0 := by
  unfold startCount
  rw [List.length_eq_zero, List.filter_eq_nil_iff]
  intro e he
  simp [h e he]

theorem noUseAfterDispose_append (a b : List Event) (h : ∀ e ∈ a, e.isDispose = false) :
    noUseAfterDispose (a ++ b) = noUseAfterDispose b := by
  induction a with
  | nil => rfl
  | cons x xs ih =>
    have hx : x.isDispose = false := h x (by simp)
    simp only [List.cons_append, noUseAfterDispose, hx, Bool.false_eq_true, if_false]
    exact ih (fun e he => h e (by simp [he]))

theorem startCount_exch (c : VncClient) :
    startCount [exchEvent c] =
      if c.sasl.sasl_stage = SaslStage.SaslServerStart then 1 else 0 := by
  cases hstage : c.sasl.sasl_stage <;>
    simp [startCount, List.filter, exchEvent, hstage, Event.isStart]

theorem dispose_pair_count (c1 : VncClient) :
    disposeCount [exchEvent c1, Event.dispose] = 1 ∧
    noUseAfterDispose [exchEvent c1, Event.dispose] = true := by
  cases hstage : c1.sasl.sasl_stage <;>
    simp [exchEvent, hstage, disposeCount, noUseAfterDispose, Event.isDispose,
      Event.usesProvider, List.filter]

theorem check_ssf_sasl (s : Sasl) (pr : SsfProp) :
    (sasl_check_ssf s pr).sasl.sasl_conn = s.sasl_conn ∧
    (sasl_check_ssf s pr).sasl.sasl_stage = s.sasl_stage := by
  by_cases hw : s.want_ssf
  · rcases pr with _ | v
    · simp [sasl_check_ssf, hw]
    · by_cases hv : v < MIN_SSF_LENGTH <;> simp [sasl_check_ssf, hw, hv]
  · simp [sasl_check_ssf, hw]

theorem check_authz_sasl (s : Sasl) (u : UserProp) : (sasl_check_authz s u).sasl = s := by
  rcases u with _ | _ | name
  · rfl
  · rfl
  · by_cases hi : s.identity = name <;> simp [sasl_check_authz, hi]

theorem check_ssf_events_benign (s : Sasl) (pr : SsfProp) :
    ∀ e ∈ (sasl_check_ssf s pr).events, e.isDispose = false ∧ e.isStart = false := by
  by_cases hw : s.want_ssf
  · rcases pr with _ | v
    · simp [sasl_check_ssf, hw, Event.isDispose, Event.isStart]
    · by_cases hv : v < MIN_SSF_LENGTH <;>
        simp [sasl_check_ssf, hw, hv, Event.isDispose, Event.isStart]
  · simp [sasl_check_ssf, hw]

theorem check_authz_events_benign (s : Sasl) (u : UserProp) :
    ∀ e ∈ (sasl_check_authz s u).events, e.isDispose = false ∧ e.isStart = false := by
  rcases u with _ | _ | name
  · simp [sasl_check_authz, Event.isDispose, Event.isStart]
  · simp [sasl_check_authz, Event.isDispose, Event.isStart]
  · by_cases hi : s.identity = name <;>
      simp [sasl_check_authz, hi, Event.isDispose, Event.isStart]

theorem csa_effects (c : VncClient) (p : Provider) :
    ((∀ e ∈ (client_sasl_auth c p).events, e.isDispose = false) ∧
        (client_sasl_auth c p).client.sasl.sasl_conn = c.sasl.sasl_conn ∨
      resOk (client_sasl_auth c p).result = false ∧
        (client_sasl_auth c p).client.sasl.sasl_conn = none ∧
        (client_sasl_auth c p).events = [exchEvent c, Event.dispose]) ∧
    startCount (client_sasl_auth c p).events ≤ 1 ∧
    (c.sasl.sasl_stage = SaslStage.SaslServerStep →
      startCount (client_sasl_auth c p).events = 0 ∧
      (client_sasl_auth c p).client.sasl.sasl_stage = SaslStage.SaslServerStep) ∧
    (resOk (client_sasl_auth c p).result = true →
      (client_sasl_auth c p).client.sasl.sasl_stage = SaslStage.SaslServerStep ∨
      (client_sasl_auth c p).client.handler = Handler.HandleClientInit) := by
  have hdispose : ∀ e2 : VncError,
      client_sasl_auth c p =
        ⟨{ c with sasl := { c.sasl with sasl_conn := none } },
          [exchEvent c, Event.dispose], Except.error e2⟩ →
      ((∀ e ∈ (client_sasl_auth c p).events, e.isDispose = false) ∧
          (client_sasl_auth c p).client.sasl.sasl_conn = c.sasl.sasl_conn ∨
        resOk (client_sasl_auth c p).result = false ∧
          (client_sasl_auth c p).client.sasl.sasl_conn = none ∧
          (client_sasl_auth c p).events = [exchEvent c, Event.dispose]) ∧
      startCount (client_sasl_auth c p).events ≤ 1 ∧
      (c.sasl.sasl_stage = SaslStage.SaslServerStep →
        startCount (client_sasl_auth c p).events = 0 ∧
        (client_sasl_auth c p).client.sasl.sasl_stage = SaslStage.SaslServerStep) ∧
      (resOk (client_sasl_auth c p).result = true →
        (client_sasl_auth c p).client.sasl.sasl_stage = SaslStage.SaslServerStep ∨
        (client_sasl_auth c p).client.handler = Handler.HandleClientInit) := by
    intro e2 he
    rw [he]
    refine ⟨Or.inr ⟨rfl, rfl, rfl⟩, ?_, ?_, ?_⟩
    · cases hstage : c.sasl.sasl_stage <;>
        simp [startCount, List.filter, exchEvent, hstage, Event.isStart]
    · intro hs
      refine ⟨?_, hs⟩
      apply startCount_eq_zero
      intro e he2
      simp only [List.mem_cons, List.not_mem_nil, or_false] at he2
      rcases he2 with rfl | rfl
      · unfold exchEvent
        rw [hs]
        simp [Event.isStart]
      · rfl
    · intro h
      simp [resOk] at h
  by_cases hOK : p.exchange.err = SASL_OK
  · by_cases h2 : p.exchange.serverout.length > SASL_DATA_MAX_LEN
    · exact hdispose _ (csa_too_long c p (Or.inl hOK) h2)
    · rcases h3 : (sasl_check_ssf c.sasl p.ssf).result with e1 | u
      · rw [csa_complete_ssf_fail c p e1 hOK h2 h3]
        refine ⟨Or.inl ⟨?_, (check_ssf_sasl c.sasl p.ssf).1⟩, ?_, ?_, ?_⟩
        · intro e he
          simp only [List.mem_append, List.mem_cons, List.not_mem_nil, or_false] at he
          rcases he with (rfl | hmid) | rfl
          · exact exchEvent_isDispose c
          · exact (check_ssf_events_benign c.sasl p.ssf e hmid).1
          · rfl
        · rw [startCount_append, startCount_append,
            startCount_eq_zero _ (fun e he => (check_ssf_events_benign c.sasl p.ssf e he).2),
            startCount_exch]
          split <;> simp [startCount, List.filter, Event.isStart]
        · intro hs
          constructor
          · rw [startCount_append, startCount_append,
              startCount_eq_zero _ (fun e he => (check_ssf_events_benign c.sasl p.ssf e he).2),
              startCount_exch, hs]
            simp [startCount, List.filter, Event.isStart]
          · show (sasl_check_ssf c.sasl p.ssf).sasl.sasl_stage = _
            rw [(check_ssf_sasl c.sasl p.ssf).2]
            exact hs
        · intro h
          simp [resOk] at h
      · cases u
        rcases h4 : (sasl_check_authz (sasl_check_ssf c.sasl p.ssf).sasl p.username).result
            with e2 | u2
        · rw [csa_complete_authz_fail c p e2 hOK h2 h3 h4]
          refine ⟨Or.inl ⟨?_, ?_⟩, ?_, ?_, ?_⟩
          · intro e he
            simp only [List.mem_append, List.mem_cons, List.not_mem_nil, or_false] at he
            rcases he with ((rfl | hm1) | hm2) | rfl
            · exact exchEvent_isDispose c
            · exact (check_ssf_events_benign c.sasl p.ssf e hm1).1
            · exact (check_authz_events_benign (sasl_check_ssf c.sasl p.ssf).sasl
                p.username e hm2).1
            · rfl
          · show (sasl_check_authz (sasl_check_ssf c.sasl p.ssf).sasl p.username).sasl.sasl_conn
                = _
            rw [check_authz_sasl]
            exact (check_ssf_sasl c.sasl p.ssf).1
          · rw [startCount_append, startCount_append, startCount_append,
              startCount_eq_zero _ (fun e he => (check_ssf_events_benign c.sasl p.ssf e he).2),
              startCount_eq_zero _ (fun e he => (check_authz_events_benign
                (sasl_check_ssf c.sasl p.ssf).sasl p.username e he).2),
              startCount_exch]
            split <;> simp [startCount, List.filter, Event.isStart]
          · intro hs
            constructor
            · rw [startCount_append, startCount_append, startCount_append,
                startCount_eq_zero _ (fun e he =>
                  (check_ssf_events_benign c.sasl p.ssf e he).2),
                startCount_eq_zero _ (fun e he => (check_authz_events_benign
                  (sasl_check_ssf c.sasl p.ssf).sasl p.username e he).2),
                startCount_exch, hs]
              simp [startCount, List.filter, Event.isStart]
            · show (sasl_check_authz (sasl_check_ssf c.sasl p.ssf).sasl p.username).sasl.sasl_stage
                  = _
              rw [check_authz_sasl, (check_ssf_sasl c.sasl p.ssf).2]
              exact hs
          · intro h
            simp [resOk] at h
        · cases u2
          rw [csa_complete_ok c p hOK h2 h3 h4]
          refine ⟨Or.inl ⟨?_, ?_⟩, ?_, ?_, fun _ => Or.inr rfl⟩
          · intro e he
            simp only [List.mem_append, List.mem_cons, List.not_mem_nil, or_false] at he
            rcases he with ((rfl | hm1) | hm2) | rfl
            · exact exchEvent_isDispose c
            · exact (check_ssf_events_benign c.sasl p.ssf e hm1).1
            · exact (check_authz_events_benign (sasl_check_ssf c.sasl p.ssf).sasl
                p.username e hm2).1
            · rfl
          · show (sasl_check_authz (sasl_check_ssf c.sasl p.ssf).sasl p.username).sasl.sasl_conn
                = _
            rw [check_authz_sasl]
            exact (check_ssf_sasl c.sasl p.ssf).1
          · rw [startCount_append, startCount_append, startCount_append,
              startCount_eq_zero _ (fun e he => (check_ssf_events_benign c.sasl p.ssf e he).2),
              startCount_eq_zero _ (fun e he => (check_authz_events_benign
                (sasl_check_ssf c.sasl p.ssf).sasl p.username e he).2),
              startCount_exch]
            split <;> simp [startCount, List.filter, Event.isStart]
          · intro hs
            constructor
            · rw [startCount_append, startCount_append, startCount_append,
                startCount_eq_zero _ (fun e he =>
                  (check_ssf_events_benign c.sasl p.ssf e he).2),
                startCount_eq_zero _ (fun e he => (check_authz_events_benign
                  (sasl_check_ssf c.sasl p.ssf).sasl p.username e he).2),
                startCount_exch, hs]
              simp [startCount, List.filter, Event.isStart]
            · show (sasl_check_authz (sasl_check_ssf c.sasl p.ssf).sasl p.username).sasl.sasl_stage
                  = _
              rw [check_authz_sasl, (check_ssf_sasl c.sasl p.ssf).2]
              exact hs
  · by_cases hC : p.exchange.err = SASL_CONTINUE
    · by_cases h2 : p.exchange.serverout.length > SASL_DATA_MAX_LEN
      · exact hdispose _ (csa_too_long c p (Or.inr hC) h2)
      · rw [csa_continue c p hC h2]
        refine ⟨Or.inl ⟨?_, rfl⟩, ?_, ?_, fun _ => Or.inl rfl⟩
        · intro e he
          simp only [List.mem_cons, List.not_mem_nil, or_false] at he
          subst he
          exact exchEvent_isDispose c
        · rw [startCount_exch]
          split <;> simp
        · intro hs
          refine ⟨?_, rfl⟩
          rw [startCount_exch, hs]
          simp
    · exact hdispose _ (csa_provider_err c p ⟨hOK, hC⟩)

theorem dispatch_effects (c : VncClient) (p : Provider) :
    ((∀ e ∈ (dispatch c p).events, e.isDispose = false) ∧
        (dispatch c p).client.sasl.sasl_conn = c.sasl.sasl_conn ∨
      resOk (dispatch c p).result = false ∧
        (dispatch c p).client.sasl.sasl_conn = none ∧
        (dispatch c p).events = [exchEvent c, Event.dispose]) ∧
    startCount (dispatch c p).events ≤ 1 ∧
    (c.sasl.sasl_stage = SaslStage.SaslServerStep →
      startCount (dispatch c p).events = 0 ∧
      (dispatch c p).client.sasl.sasl_stage = SaslStage.SaslServerStep) ∧
    (resOk (dispatch c p).result = true →
      (startCount (dispatch c p).events = 0 ∧
        (dispatch c p).client.sasl.sasl_stage = c.sasl.sasl_stage) ∨
      (dispatch c p).client.sasl.sasl_stage = SaslStage.SaslServerStep ∨
      (dispatch c p).client.handler = Handler.HandleClientInit) := by
  cases hH : c.handler
  case GetMechnameLength =>
    simp only [dispatch, hH]
    by_cases hl : from_be_bytes (read_front c) > MECHNAME_MAX_LEN
    · simp [get_mechname_length, hl, resOk, startCount, List.filter]
    · by_cases hs : from_be_bytes (read_front c) < MECHNAME_MIN_LEN
      · simp [get_mechname_length, hl, hs, resOk, startCount, List.filter]
      · simp [get_mechname_length, hl, hs, resOk, startCount, List.filter,
          update_event_handler]
  case GetSaslMechname =>
    simp only [dispatch, hH]
    by_cases hm : bytesToString (read_front c) ∈ splitMechList c.sasl.mech_list
    · by_cases hz : bytesToString (read_front c) = ("")
      · rw [hz] at hm
        simp [get_sasl_mechname, hm, hz, resOk, startCount, List.filter]
      · simp [get_sasl_mechname, hm, hz, resOk, startCount, List.filter,
          update_event_handler]
    · by_cases hz : c.sasl.mech_name = ("")
      · simp [get_sasl_mechname, hm, hz, resOk, startCount, List.filter]
      · simp [get_sasl_mechname, hm, hz, resOk, startCount, List.filter,
          update_event_handler]
  case GetAuthmessageLength =>
    simp only [dispatch, hH]
    by_cases hl : from_be_bytes (read_front c) > SASL_DATA_MAX_LEN
    · simp [get_authmessage_length, hl, resOk, startCount, List.filter]
    · by_cases h0 : from_be_bytes (read_front c) = 0
      · have he : get_authmessage_length c p = client_sasl_auth c p := by
          simp [get_authmessage_length, hl, h0]
        rw [he]
        have hc := csa_effects c p
        exact ⟨hc.1, hc.2.1, hc.2.2.1, fun hok => Or.inr (hc.2.2.2 hok)⟩
      · simp [get_authmessage_length, hl, h0, resOk, startCount, List.filter,
          update_event_handler]
  case ClientSaslAuth =>
    simp only [dispatch, hH]
    have hc := csa_effects c p
    exact ⟨hc.1, hc.2.1, hc.2.2.1, fun hok => Or.inr (hc.2.2.2 hok)⟩
  case HandleClientInit =>
    simp [dispatch, hH, resOk, startCount, List.filter]

theorem run_stopped (c : VncClient) (inputs : List (List Nat × Provider))
    (h : c.handler = Handler.HandleClientInit) : run c inputs = (c, []) := by
  cases inputs with
  | nil => rfl
  | cons ip rest =>
    obtain ⟨bytes, pp⟩ := ip
    simp [run, h]

theorem run_startCount (inputs : List (List Nat × Provider)) :
    ∀ c : VncClient,
      (c.sasl.sasl_stage = SaslStage.SaslServerStep → startCount (run c inputs).2 = 0) ∧
      startCount (run c inputs).2 ≤ 1 := by
  induction inputs with
  | nil =>
    intro c
    simp [run, startCount, List.filter]
  | cons ip rest ih =>
    intro c
    obtain ⟨bytes, p⟩ := ip
    by_cases hH : c.handler = Handler.HandleClientInit
    · simp [run, hH, startCount, List.filter]
    · have hd := dispatch_effects { c with buffpool := c.buffpool ++ bytes } p
      rcases hres : (dispatch { c with buffpool := c.buffpool ++ bytes } p).result with e | u
      · have hrun : run c ((bytes, p) :: rest) =
            ((dispatch { c with buffpool := c.buffpool ++ bytes } p).client,
              (dispatch { c with buffpool := c.buffpool ++ bytes } p).events) := by
          simp [run, hH, hres]
        rw [hrun]
        exact ⟨fun hs => (hd.2.2.1 hs).1, hd.2.1⟩
      · have hok : resOk (dispatch { c with buffpool := c.buffpool ++ bytes } p).result =
            true := by
          rw [hres]
          rfl
        have hrun : run c ((bytes, p) :: rest) =
            ((run (dispatch { c with buffpool := c.buffpool ++ bytes } p).client rest).1,
              (dispatch { c with buffpool := c.buffpool ++ bytes } p).events ++
                (run (dispatch { c with buffpool := c.buffpool ++ bytes } p).client rest).2) := by
          simp [run, hH, hres]
        rw [hrun, startCount_append]
        constructor
        · intro hs
          have hstep := hd.2.2.1 hs
          have hrest := (ih (dispatch { c with buffpool := c.buffpool ++ bytes } p).client).1
            hstep.2
          rw [hstep.1, hrest]
        · rcases hd.2.2.2 hok with ⟨h0, _⟩ | hstep | hHCI
          · have hrest := (ih (dispatch { c with buffpool := c.buffpool ++ bytes } p).client).2
            omega
          · have hrest := (ih (dispatch { c with buffpool := c.buffpool ++ bytes } p).client).1
              hstep
            have hle := hd.2.1
            omega
          · have hrest := run_stopped
              (dispatch { c with buffpool := c.buffpool ++ bytes } p).client rest hHCI
            rw [hrest]
            have hle := hd.2.1
            simpa [startCount, List.filter] using hle

theorem run_dispose (inputs : List (List Nat × Provider)) :
    ∀ c : VncClient, c.sasl.sasl_conn = some () →
      ((run c inputs).1.sasl.sasl_conn = some () ∧
        ∀ e ∈ (run c inputs).2, e.isDispose = false) ∨
      ((run c inputs).1.sasl.sasl_conn = none ∧
        disposeCount (run c inputs).2 = 1 ∧
        noUseAfterDispose (run c inputs).2 = true) := by
  induction inputs with
  | nil =>
    intro c hconn
    left
    constructor
    · simpa [run] using hconn
    · simp [run]
  | cons ip rest ih =>
    intro c hconn
    obtain ⟨bytes, p⟩ := ip
    by_cases hH : c.handler = Handler.HandleClientInit
    · left
      constructor
      · simpa [run, hH] using hconn
      · simp [run, hH]
    · have hd := dispatch_effects { c with buffpool := c.buffpool ++ bytes } p
      rcases hres : (dispatch { c with buffpool := c.buffpool ++ bytes } p).result with e | u
      · have hrun : run c ((bytes, p) :: rest) =
            ((dispatch { c with buffpool := c.buffpool ++ bytes } p).client,
              (dispatch { c with buffpool := c.buffpool ++ bytes } p).events) := by
          simp [run, hH, hres]
        rw [hrun]
        rcases hd.1 with ⟨hnd, hcpres⟩ | ⟨_, hnone, hevents⟩
        · left
          refine ⟨?_, hnd⟩
          rw [hcpres]
          exact hconn
        · right
          rw [hevents]
          exact ⟨hnone, (dispose_pair_count _).1, (dispose_pair_count _).2⟩
      · have hrun : run c ((bytes, p) :: rest) =
            ((run (dispatch { c with buffpool := c.buffpool ++ bytes } p).client rest).1,
              (dispatch { c with buffpool := c.buffpool ++ bytes } p).events ++
                (run (dispatch { c with buffpool := c.buffpool ++ bytes } p).client rest).2) := by
          simp [run, hH, hres]
        rw [hrun]
        rcases hd.1 with ⟨hnd, hcpres⟩ | ⟨hfalse, _, _⟩
        · have hconn2 :
              ((dispatch { c with buffpool := c.buffpool ++ bytes } p).client).sasl.sasl_conn =
                some () := by
            rw [hcpres]
            exact hconn
          rcases ih (dispatch { c with buffpool := c.buffpool ++ bytes } p).client hconn2
              with ⟨hc2, hnd2⟩ | ⟨hc2, hcount2, hnouse2⟩
          · left
            refine ⟨hc2, ?_⟩
            intro e he
            rcases List.mem_append.mp he with h | h
            · exact hnd e h
            · exact hnd2 e h
          · right
            refine ⟨hc2, ?_, ?_⟩
            · rw [disposeCount_append, disposeCount_eq_zero _ hnd, hcount2]
            · rw [noUseAfterDispose_append _ _ hnd]
              exact hnouse2
        · rw [hres] at hfalse
          simp [resOk] at hfalse

/-- Claim C3: over a whole handshake run followed by connection teardown
(the latter modelled from the spec, see `teardown`), the provider session
handle is disposed exactly once on every terminal path — hard failures
dispose inside the exchange round, finalize rejects, completed successes
and mid-handshake closes are disposed by teardown — and no provider call
ever follows a disposal in the trace. -/
theorem C3_dispose_once (c : VncClient) (inputs : List (List Nat × Provider))
    (hconn : c.sasl.sasl_conn = some ()) :
    disposeCount (fullTrace c inputs) = 1 ∧
    noUseAfterDispose (fullTrace c inputs) = true := by
  unfold fullTrace
  rcases run_dispose inputs c hconn with ⟨hc, hnd⟩ | ⟨hc, hcount, hnouse⟩
  · have ht : (teardown (run c inputs).1).2 = [Event.dispose] := by
      simp [teardown, hc]
    rw [ht]
    constructor
    · rw [disposeCount_append, disposeCount_eq_zero _ hnd]
      decide
    · rw [noUseAfterDispose_append _ _ hnd]
      decide
  · have ht : (teardown (run c inputs).1).2 = [] := by
      simp [teardown, hc]
    rw [ht, List.append_nil]
    exact ⟨hcount, hnouse⟩

theorem C3_dispose_once_witness :
    disposeCount (fullTrace cFin [([], pFinOk)]) = 1 ∧
    noUseAfterDispose (fullTrace cFin [([], pFinOk)]) = true :=
  C3_dispose_once cFin [([], pFinOk)] rfl

/-- Claim C8, counterexample: a handshake whose single provider call
returns Complete and passes both checks makes exactly one start-exchange
call, terminates successfully (post-authentication handler registered,
read size 1), yet the stage never transitions: it is still ExchangeStart
at the end, where the claim says the first provider call transitions it
to ExchangeStep, there to remain. -/
theorem C8_stage_cex :
    startCount (run cFin [([], pFinOk)]).2 = 1 ∧
    (run cFin [([], pFinOk)]).1.handler = Handler.HandleClientInit ∧
    (run cFin [([], pFinOk)]).1.sasl.sasl_stage = SaslStage.SaslServerStart ∧
    ¬ (run cFin [([], pFinOk)]).1.sasl.sasl_stage = SaslStage.SaslServerStep := by decide

/-- Claim C8 (amended): the stage starts at ExchangeStart; for a round
entered at ExchangeStart, the stage after the provider call is
ExchangeStep exactly when the call returned Continue (with a challenge
within bounds) — on every other termination of that round, whether the
provider call fails hard, the challenge is oversized, or the call returns
Complete and finalize rejects or accepts, the stage is still
ExchangeStart; once ExchangeStep it remains ExchangeStep with no further
start-exchange call; and in every handshake at most one start-exchange
call is issued to the provider. -/
theorem C8_stage_discipline (c : VncClient) (p : Provider)
    (inputs : List (List Nat × Provider))
    (hstart : c.sasl.sasl_stage = SaslStage.SaslServerStart) :
    startCount (run c inputs).2 ≤ 1 ∧
    ((client_sasl_auth c p).client.sasl.sasl_stage = SaslStage.SaslServerStep ↔
      p.exchange.err = SASL_CONTINUE ∧
        ¬ p.exchange.serverout.length > SASL_DATA_MAX_LEN) ∧
    (¬ (p.exchange.err = SASL_CONTINUE ∧
          ¬ p.exchange.serverout.length > SASL_DATA_MAX_LEN) →
      (client_sasl_auth c p).client.sasl.sasl_stage = SaslStage.SaslServerStart) ∧
    (∀ c2 p2, c2.sasl.sasl_stage = SaslStage.SaslServerStep →
      startCount (client_sasl_auth c2 p2).events = 0 ∧
      (client_sasl_auth c2 p2).client.sasl.sasl_stage = SaslStage.SaslServerStep) := by
  have hcases :
      ((client_sasl_auth c p).client.sasl.sasl_stage = SaslStage.SaslServerStep ↔
        p.exchange.err = SASL_CONTINUE ∧
          ¬ p.exchange.serverout.length > SASL_DATA_MAX_LEN) ∧
      (¬ (p.exchange.err = SASL_CONTINUE ∧
            ¬ p.exchange.serverout.length > SASL_DATA_MAX_LEN) →
        (client_sasl_auth c p).client.sasl.sasl_stage = SaslStage.SaslServerStart) := by
    by_cases hOK : p.exchange.err = SASL_OK
    · have hne : ¬ p.exchange.err = SASL_CONTINUE := by
        rw [hOK]
        decide
      have hst : (client_sasl_auth c p).client.sasl.sasl_stage =
          SaslStage.SaslServerStart := by
        by_cases h2 : p.exchange.serverout.length > SASL_DATA_MAX_LEN
        · rw [csa_too_long c p (Or.inl hOK) h2]
          exact hstart
        · rcases h3 : (sasl_check_ssf c.sasl p.ssf).result with e1 | u
          · rw [csa_complete_ssf_fail c p e1 hOK h2 h3]
            show (sasl_check_ssf c.sasl p.ssf).sasl.sasl_stage = _
            rw [(check_ssf_sasl c.sasl p.ssf).2]
            exact hstart
          · cases u
            rcases h4 : (sasl_check_authz (sasl_check_ssf c.sasl p.ssf).sasl
                p.username).result with e2 | u2
            · rw [csa_complete_authz_fail c p e2 hOK h2 h3 h4]
              show (sasl_check_authz (sasl_check_ssf c.sasl p.ssf).sasl
                  p.username).sasl.sasl_stage = _
              rw [check_authz_sasl, (check_ssf_sasl c.sasl p.ssf).2]
              exact hstart
            · cases u2
              rw [csa_complete_ok c p hOK h2 h3 h4]
              show (sasl_check_authz (sasl_check_ssf c.sasl p.ssf).sasl
                  p.username).sasl.sasl_stage = _
              rw [check_authz_sasl, (check_ssf_sasl c.sasl p.ssf).2]
              exact hstart
      rw [hst]
      constructor
      · simp [hne]
      · intro _
        rfl
    · by_cases hC : p.exchange.err = SASL_CONTINUE
      · by_cases h2 : p.exchange.serverout.length > SASL_DATA_MAX_LEN
        · have hst : (client_sasl_auth c p).client.sasl.sasl_stage =
              SaslStage.SaslServerStart := by
            rw [csa_too_long c p (Or.inr hC) h2]
            exact hstart
          rw [hst]
          constructor
          · simp [h2]
          · intro _
            rfl
        · have hst : (client_sasl_auth c p).client.sasl.sasl_stage =
              SaslStage.SaslServerStep := by
            rw [csa_continue c p hC h2]
            rfl
          rw [hst]
          constructor
          · simp [hC, h2]
          · intro hfalse
            exact absurd ⟨hC, h2⟩ hfalse
      · have hst : (client_sasl_auth c p).client.sasl.sasl_stage =
            SaslStage.SaslServerStart := by
          rw [csa_provider_err c p ⟨hOK, hC⟩]
          exact hstart
        rw [hst]
        constructor
        · simp [hC]
        · intro _
          rfl
  exact ⟨(run_startCount inputs c).2, hcases.1, hcases.2,
    fun c2 p2 hs2 => (csa_effects c2 p2).2.2.1 hs2⟩

theorem C8_stage_discipline_witness :
    startCount (run cFin [([], pFinOk)]).2 ≤ 1 ∧
    (client_sasl_auth cFin pFinOk).client.sasl.sasl_stage = SaslStage.SaslServerStart :=
  ⟨(C8_stage_discipline cFin pFinOk [([], pFinOk)] rfl).1,
    (C8_stage_discipline cFin pFinOk [([], pFinOk)] rfl).2.2.1 (by decide)⟩

end StratoVncAuth
